import Mathlib

/-!
Shallow embedding of the hocs backend core (opportunity rule engine, tier
classifier, utility resolver, program catalog) together with theorems that
settle the specification claims.

Python strings are embedded as Lean `String`; Python floats (coordinates,
costs, scores) as `ℚ`; Python `str.lower()` as an ASCII character map;
Python substring tests (`pat in s`) as a structural list-infix search.
-/

/-- Embedding of Python `str.lower()` (character-wise ASCII lowercase). -/
def pyLower (s : String) : String := String.mk (s.data.map Char.toLower)

/-- Bool test that `p` is a prefix of the second list (structural). -/
def listPrefixOf : List Char → List Char → Bool
  | [], _ => true
  | _ :: _, [] => false
  | a :: as, b :: bs => a == b && listPrefixOf as bs

/-- Embedding of the Python substring test `pat in hay`. -/
def pyIn (pat hay : String) : Bool := go pat.data hay.data
where
  go (p : List Char) : List Char → Bool
    | [] => listPrefixOf p []
    | h :: t => listPrefixOf p (h :: t) || go p t

-- ## Data model (src/backend/models.py)

/-- Category of a savings opportunity (`Literal['energy','solar','water','maintenance']`). -/
inductive OppCategory
  | energy | solar | water | maintenance
deriving DecidableEq

/-- Difficulty of a savings opportunity (`Literal['DIY','Professional','Specialist']`). -/
inductive Difficulty
  | DIY | Professional | Specialist
deriving DecidableEq

/-- Type tag of an official resource (`Literal['government','utility','program']`). -/
inductive ResourceType
  | government | utility | program
deriving DecidableEq

/-- Official resource link (models.py `OfficialResource`): name, url, type. -/
structure OfficialResource where
  name : String
  url : String
  type : ResourceType
deriving DecidableEq

/-- Rebate information (models.py `Rebate`): name, amount, link. -/
structure Rebate where
  name : String
  amount : ℚ
  link : String
deriving DecidableEq

/-- Upfront cost range (models.py `UpfrontCost`): min, max. -/
structure UpfrontCost where
  min : ℚ
  max : ℚ
deriving DecidableEq

/-- Savings opportunity (models.py `SavingsOpportunity`), field for field. -/
structure SavingsOpportunity where
  id : String
  category : OppCategory
  name : String
  annualSavings : ℚ
  upfrontCost : UpfrontCost
  rebates : List Rebate
  paybackMonths : ℚ
  difficulty : Difficulty
  confidenceScore : ℚ
  benefits : List String
  nextSteps : List String
  methodology : String
  officialResources : Option (List OfficialResource)
deriving DecidableEq

/-- Wildfire zone enum (`Literal['Low','Medium','High']`). -/
inductive WildfireZone
  | Low | Medium | High
deriving DecidableEq

/-- Property data (models.py `PropertyData`), field for field. -/
structure PropertyData where
  address : String
  yearBuilt : Int
  squareFeet : Int
  bedrooms : Int
  bathrooms : Int
  lotSize : Int
  lastSalePrice : ℚ
  assessedValue : ℚ
  propertyTaxEstimate : ℚ
  utilityProvider : String
  electricProvider : Option String
  gasProvider : Option String
  waterProvider : Option String
  wildfireZone : WildfireZone
  roofAge : Int
  solarFeasibilityScore : ℚ
  permitHistory : List String
deriving DecidableEq

-- ## Opportunity rule engine (src/backend/services/opportunity_service.py)

/-- The LA-county detection from `generate_opportunities` (lines 17-20):
`property_data.utilityProvider in [...]`. -/
def is_la_county (p : PropertyData) : Bool :=
  ["Pasadena Water & Power", "LADWP", "Glendale Water & Power",
   "Burbank Water & Power", "Santa Monica Municipal Utilities"].contains p.utilityProvider

/-- The `energy-audit` opportunity literal, with the LA-county text variants. -/
def energyAuditOpp (p : PropertyData) : SavingsOpportunity :=
  SavingsOpportunity.mk
    "energy-audit" .energy "Schedule Free Home Energy Audit" 300
    (UpfrontCost.mk 0 0) [] 0 .DIY 95
    ["Identify energy waste and inefficiencies at no cost",
     "Get personalized recommendations from certified auditor",
     "Qualify for additional rebates and incentives",
     "Track baseline energy usage for future improvements"]
    (if is_la_county p then
      ["Contact your utility provider to schedule free audit",
       "Pasadena Water & Power: (626) 744-4005",
       "LADWP: (800) 342-5397",
       "Document current utility bills for comparison"]
     else
      ["Contact " ++ p.utilityProvider ++ " to schedule free audit",
       "Check your utility provider website for energy efficiency programs",
       "Document current utility bills for comparison",
       "Visit California Energy Commission for statewide programs"])
    "Free energy audits identify an average of $300-500/year in savings opportunities. This is the foundation for measuring and managing your home\x27s energy performance."
    (some (if is_la_county p then
      [OfficialResource.mk "Pasadena Water & Power Energy Programs" "https://www.cityofpasadena.net/water-and-power/energy-efficiency/" .utility,
       OfficialResource.mk "LADWP Energy Efficiency Programs" "https://www.ladwp.com/ladwp/faces/ladwp/residential/r-savemoney/r-sm-rebatesandprograms" .utility,
       OfficialResource.mk "California Energy Commission" "https://www.energy.ca.gov/programs-and-topics/programs/energy-efficiency" .government]
     else
      [OfficialResource.mk "California Energy Commission" "https://www.energy.ca.gov/programs-and-topics/programs/energy-efficiency" .government,
       OfficialResource.mk "Find Your Utility Provider Programs" "https://www.cpuc.ca.gov/industries-and-topics/electrical-energy/electric-costs/energy-efficiency-ee" .government]))

/-- The `water-kit` opportunity literal, with the LA-county text variants. -/
def waterKitOpp (p : PropertyData) : SavingsOpportunity :=
  SavingsOpportunity.mk
    "water-kit" .water "Request Free Water Conservation Kit" 120
    (UpfrontCost.mk 0 0) [] 0 .DIY 98
    ["Free kit includes low-flow showerheads and faucet aerators",
     "Reduce water usage by 20-30% immediately",
     "Easy DIY installation in under 30 minutes",
     "Start tracking water savings right away"]
    (if is_la_county p then
      ["Order free kit from SoCal Water$mart: bewaterwise.com",
       "Install fixtures and note installation date",
       "Compare next water bill to establish baseline savings",
       "Track monthly water usage to measure impact"]
     else
      ["Contact your local water district for free conservation kits",
       "Check California Water Service for available programs",
       "Install fixtures and note installation date",
       "Track monthly water usage to measure impact"])
    (if is_la_county p then
      "Metropolitan Water District provides free conservation kits. Average household saves 120 gallons/month = $120/year. What gets measured gets managed - track your water bills monthly."
     else
      "Many California water districts provide free conservation kits. Average household saves 120 gallons/month = $120/year. What gets measured gets managed - track your water bills monthly.")
    (some (if is_la_county p then
      [OfficialResource.mk "SoCal Water$mart (Metropolitan Water District)" "https://www.bewaterwise.com/" .utility,
       OfficialResource.mk "LA County Water Conservation" "https://dpw.lacounty.gov/wwd/web/Conservation/" .government,
       OfficialResource.mk "California Water Service" "https://www.calwater.com/conservation/" .utility]
     else
      [OfficialResource.mk "California Water Service" "https://www.calwater.com/conservation/" .utility,
       OfficialResource.mk "Save Our Water (Statewide)" "https://saveourwater.com/" .government,
       OfficialResource.mk "California Department of Water Resources" "https://water.ca.gov/Programs/Water-Use-And-Efficiency" .government]))

/-- The `led-lighting` opportunity literal. -/
def ledLightingOpp : SavingsOpportunity :=
  SavingsOpportunity.mk
    "led-lighting" .energy "Convert to LED Lighting (Start with High-Use Areas)" 150
    (UpfrontCost.mk 50 150) [] 8 .DIY 98
    ["Reduce lighting costs by 75% in converted areas",
     "LED bulbs last 15-25 years vs 1-2 years for incandescent",
     "Instant energy savings you can measure on next bill",
     "No special tools or skills required"]
    ["Identify 10 highest-use bulbs (kitchen, living room, outdoor)",
     "Purchase LED replacements in bulk for best price",
     "Note your current electric bill before conversion",
     "Track monthly electric bills to measure savings"]
    "Converting 10 high-use bulbs saves ~$150/year. Start small, measure impact, then expand. Track your electric bill monthly to see the difference."
    (some
      [OfficialResource.mk "ENERGY STAR Lighting Guide" "https://www.energystar.gov/products/lighting_fans" .government,
       OfficialResource.mk "California Energy Commission - Lighting" "https://www.energy.ca.gov/programs-and-topics/programs/appliance-efficiency-program/lighting" .government])

/-- The `power-strips` opportunity literal. -/
def powerStripsOpp : SavingsOpportunity :=
  SavingsOpportunity.mk
    "power-strips" .energy "Install Smart Power Strips to Eliminate Phantom Load" 100
    (UpfrontCost.mk 60 120) [] 9 .DIY 92
    ["Eliminate \"vampire\" energy drain from devices on standby",
     "Automatically cut power to unused devices",
     "Reduce electric bill by 5-10% with no behavior change",
     "Easy to measure impact on monthly bills"]
    ["Identify entertainment centers and home office areas",
     "Purchase smart power strips with auto-shutoff",
     "Note current monthly electric usage",
     "Compare bills after 1 month to measure savings"]
    "Phantom load accounts for 5-10% of home electricity use. Smart power strips eliminate this waste. Average savings: $100/year. Track monthly to verify."
    (some
      [OfficialResource.mk "U.S. Department of Energy - Standby Power" "https://www.energy.gov/energysaver/articles/standby-power-and-how-reduce-it" .government,
       OfficialResource.mk "ENERGY STAR Smart Power Strips" "https://www.energystar.gov/products/smart_power_strips" .government])

/-- The `weatherization` opportunity literal, with the LA-county text variants. -/
def weatherizationOpp (p : PropertyData) : SavingsOpportunity :=
  SavingsOpportunity.mk
    "weatherization" .energy "Apply for Free Weatherization Assistance Program" 400
    (UpfrontCost.mk 0 0) [] 0 .Professional 85
    ["Free insulation, air sealing, and efficiency upgrades",
     "Income-qualified program (up to 200% of federal poverty level)",
     "Professional installation at no cost",
     "Reduce heating/cooling costs by 20-30%"]
    (if is_la_county p then
      ["Check eligibility at lacounty.gov/weatherization",
       "Gather income documentation for application",
       "Schedule home assessment if qualified",
       "Track utility bills before and after to measure impact"]
     else
      ["Check eligibility at csd.ca.gov/weatherization",
       "Contact your local Community Action Agency",
       "Gather income documentation for application",
       "Track utility bills before and after to measure impact"])
    (if is_la_county p then
      "LA County Weatherization Program provides free upgrades to eligible households. Average savings: $400/year. Document your baseline energy use to measure the improvement."
     else
      "California Weatherization Program provides free upgrades to eligible households statewide. Average savings: $400/year. Document your baseline energy use to measure the improvement.")
    (some (if is_la_county p then
      [OfficialResource.mk "LA County Weatherization Program" "https://dcba.lacounty.gov/weatherization/" .government,
       OfficialResource.mk "California Department of Community Services - Weatherization" "https://www.csd.ca.gov/Pages/WeatherizationProgram.aspx" .government,
       OfficialResource.mk "U.S. Department of Energy - Weatherization" "https://www.energy.gov/scep/wap/weatherization-assistance-program" .government]
     else
      [OfficialResource.mk "California Department of Community Services - Weatherization" "https://www.csd.ca.gov/Pages/WeatherizationProgram.aspx" .government,
       OfficialResource.mk "U.S. Department of Energy - Weatherization" "https://www.energy.gov/scep/wap/weatherization-assistance-program" .government,
       OfficialResource.mk "Find Your Local Community Action Agency" "https://www.csd.ca.gov/Pages/LocalOffices.aspx" .government]))

/-- The `smart-thermostat` opportunity literal. -/
def smartThermostatOpp : SavingsOpportunity :=
  SavingsOpportunity.mk
    "smart-thermostat" .energy "Install Smart Thermostat with Utility Rebate" 180
    (UpfrontCost.mk 125 225)
    [Rebate.mk "SoCalGas Smart Thermostat Rebate" 75 "https://socalgas.com/save-money-and-energy/rebates-and-incentives"]
    8 .DIY 90
    ["Reduce HVAC costs by 10-15% automatically",
     "Track energy usage in real-time via app",
     "Learning algorithms optimize comfort and savings",
     "Qualify for $75 utility rebate"]
    ["Check HVAC compatibility at nest.com or ecobee.com",
     "Apply for SoCalGas rebate before purchase",
     "Install thermostat and connect to app",
     "Monitor daily/weekly energy reports to track savings"]
    "Smart thermostats reduce HVAC costs by 12% average. Net cost after rebate: $125-150. Payback in 8-10 months. Built-in tracking helps you measure and manage energy use."
    (some
      [OfficialResource.mk "SoCalGas Rebates & Incentives" "https://socalgas.com/save-money-and-energy/rebates-and-incentives" .utility,
       OfficialResource.mk "ENERGY STAR Smart Thermostats" "https://www.energystar.gov/products/smart_thermostats" .government])

/-- The `turf-removal` opportunity literal. -/
def turfRemovalOpp : SavingsOpportunity :=
  SavingsOpportunity.mk
    "turf-removal" .water "Turf Removal & Native Landscaping Rebate" 300
    (UpfrontCost.mk 500 1500)
    [Rebate.mk "SoCal Water$mart Turf Replacement ($2/sqft)" 1000 "https://socalwatersmart.com/turf-replacement"]
    12 .Professional 88
    ["Receive $2 per square foot of turf removed (up to 5,000 sqft)",
     "Reduce outdoor water use by 50-70%",
     "Lower maintenance costs (no mowing, less watering)",
     "Drought-resistant landscaping increases property value"]
    ["Measure lawn area to calculate rebate amount",
     "Pre-qualify at socalwatersmart.com before starting",
     "Get quotes from certified landscapers",
     "Track water bills monthly to measure savings"]
    "Outdoor watering accounts for 50% of residential water use. Rebate covers most conversion costs. Average 500 sqft removal = $1,000 rebate. Saves $300/year in water costs. Track monthly bills to verify."
    (some
      [OfficialResource.mk "SoCal Water$mart Turf Replacement Program" "https://socalwatersmart.com/turf-replacement/" .program,
       OfficialResource.mk "Metropolitan Water District Rebates" "https://www.mwdh2o.com/rebates/" .utility,
       OfficialResource.mk "California Water-Efficient Landscape Ordinance" "https://water.ca.gov/Programs/Water-Use-And-Efficiency/Urban-Water-Use-Efficiency/Model-Water-Efficient-Landscape-Ordinance" .government])

/-- The `attic-insulation` opportunity literal (gated on `yearBuilt < 1980`). -/
def atticInsulationOpp : SavingsOpportunity :=
  SavingsOpportunity.mk
    "attic-insulation" .energy "Attic Insulation Upgrade with Energy Rebate" 420
    (UpfrontCost.mk 900 2200)
    [Rebate.mk "SoCalGas Energy Savings Assistance" 300 "https://socalgas.com/save-money-and-energy/rebates-and-incentives"]
    28 .Professional 85
    ["Reduce heating/cooling costs by 20-30%",
     "Improve home comfort year-round",
     "Qualify for $300 utility rebate",
     "Measurable impact on monthly energy bills"]
    ["Schedule free home energy audit first (see above)",
     "Get quotes from 3 certified insulation contractors",
     "Apply for SoCalGas rebate before installation",
     "Track monthly utility bills to measure ROI"]
    "Homes built before 1980 typically have R-11 or less insulation. Upgrading to R-38 saves $420/year average. Net cost after rebate: $600-1,900. Track heating/cooling costs monthly to verify savings."
    (some
      [OfficialResource.mk "SoCalGas Energy Efficiency Programs" "https://socalgas.com/save-money-and-energy/rebates-and-incentives" .utility,
       OfficialResource.mk "California Energy Commission - Insulation" "https://www.energy.ca.gov/programs-and-topics/programs/building-energy-efficiency-standards" .government,
       OfficialResource.mk "U.S. Department of Energy - Insulation" "https://www.energy.gov/energysaver/insulation" .government])

/-- The `solar-installation` opportunity literal (gated on `solarFeasibilityScore > 70`);
the methodology interpolates the actual score as in the Python f-string. -/
def solarInstallationOpp (p : PropertyData) : SavingsOpportunity :=
  SavingsOpportunity.mk
    "solar-installation" .solar "Residential Solar with Federal Tax Credit" 2400
    (UpfrontCost.mk 10500 17500)
    [Rebate.mk "Federal Solar Tax Credit (30%)" 6000 "https://www.energy.gov/eere/solar/homeowners-guide-federal-tax-credit-solar-photovoltaics",
     Rebate.mk "CA SGIP Battery Storage Incentive" 1000 "https://www.selfgenca.com"]
    48 .Specialist 88
    ["Eliminate 80-90% of electric bills",
     "30% federal tax credit reduces net cost significantly",
     "Additional $1,000 for battery storage",
     "Monitor production and savings via app daily"]
    ["Get 3 quotes from certified solar installers (energysage.com)",
     "Review 12 months of utility bills to size system correctly",
     "Apply for SGIP battery incentive (limited funds)",
     "Use monitoring app to track daily production and savings"]
    ("Solar feasibility score: " ++ toString p.solarFeasibilityScore ++ "/100. Average LA County electric bill: $200/month. 6kW system costs $15,000-25,000. After 30% tax credit: $10,500-17,500. Payback: 4-6 years. Built-in monitoring lets you track every kWh produced.")
    (some
      [OfficialResource.mk "U.S. Department of Energy - Solar Tax Credit" "https://www.energy.gov/eere/solar/homeowners-guide-federal-tax-credit-solar-photovoltaics" .government,
       OfficialResource.mk "California SGIP (Self-Generation Incentive Program)" "https://www.selfgenca.com/" .program,
       OfficialResource.mk "Go Solar California" "https://www.gosolarcalifornia.org/" .government,
       OfficialResource.mk "EnergySage Solar Marketplace" "https://www.energysage.com/" .program])

/-- The `heat-pump-water-heater` opportunity literal (unconditional). -/
def heatPumpWaterHeaterOpp : SavingsOpportunity :=
  SavingsOpportunity.mk
    "heat-pump-water-heater" .energy "Heat Pump Water Heater with Rebates" 350
    (UpfrontCost.mk 1200 2500)
    [Rebate.mk "SoCalGas Water Heater Rebate" 300 "https://socalgas.com/save-money-and-energy/rebates-and-incentives",
     Rebate.mk "Federal Energy Efficiency Tax Credit" 300 "https://www.energystar.gov/about/federal_tax_credits"]
    36 .Professional 82
    ["Use 60% less energy than standard electric water heaters",
     "Qualify for $600 in combined rebates",
     "Longer lifespan (12-15 years vs 8-10 years)",
     "Track energy savings via utility bills"]
    ["Check if current water heater is 8+ years old",
     "Get quotes from licensed plumbers",
     "Apply for rebates before installation",
     "Compare gas/electric bills monthly to measure savings"]
    "Water heating accounts for 18% of home energy use. Heat pump water heaters save $350/year average. Net cost after $600 rebates: $600-1,900. Payback: 2-5 years. Track monthly utility costs to verify."
    (some
      [OfficialResource.mk "SoCalGas Water Heater Rebates" "https://socalgas.com/save-money-and-energy/rebates-and-incentives" .utility,
       OfficialResource.mk "ENERGY STAR Water Heaters" "https://www.energystar.gov/products/water_heaters" .government,
       OfficialResource.mk "Federal Tax Credits for Energy Efficiency" "https://www.energystar.gov/about/federal_tax_credits" .government])

/-- The `window-replacement` opportunity literal (gated on `yearBuilt < 1990`). -/
def windowReplacementOpp : SavingsOpportunity :=
  SavingsOpportunity.mk
    "window-replacement" .energy "Energy-Efficient Window Replacement" 300
    (UpfrontCost.mk 3000 8000)
    [Rebate.mk "Federal Energy Efficiency Tax Credit" 600 "https://www.energystar.gov/about/federal_tax_credits"]
    96 .Professional 75
    ["Reduce heating/cooling costs by 10-15%",
     "Improve home comfort and reduce drafts",
     "Qualify for $600 federal tax credit",
     "Increase home value and curb appeal"]
    ["Prioritize windows with visible damage or drafts",
     "Get quotes for ENERGY STAR certified windows",
     "Consider phased approach (worst windows first)",
     "Track heating/cooling costs to measure impact"]
    "Homes built before 1990 typically have single-pane windows. Upgrading to double-pane saves $300/year. Net cost after tax credit: $2,400-7,400. Long payback but measurable comfort improvement. Track seasonal utility costs."
    (some
      [OfficialResource.mk "ENERGY STAR Windows & Doors" "https://www.energystar.gov/products/building_products/residential_windows_doors_and_skylights" .government,
       OfficialResource.mk "Federal Tax Credits for Energy Efficiency" "https://www.energystar.gov/about/federal_tax_credits" .government,
       OfficialResource.mk "California Energy Commission - Windows" "https://www.energy.ca.gov/programs-and-topics/programs/building-energy-efficiency-standards" .government])

/-- Embedding of `generate_opportunities` (opportunity_service.py lines 9-435):
the fixed template order of appends, with the three conditional gates. -/
def generate_opportunities (p : PropertyData) : List SavingsOpportunity :=
  [energyAuditOpp p, waterKitOpp p, ledLightingOpp, powerStripsOpp,
   weatherizationOpp p, smartThermostatOpp, turfRemovalOpp]
  ++ (if p.yearBuilt < 1980 then [atticInsulationOpp] else [])
  ++ (if p.solarFeasibilityScore > 70 then [solarInstallationOpp p] else [])
  ++ [heatPumpWaterHeaterOpp]
  ++ (if p.yearBuilt < 1990 then [windowReplacementOpp] else [])

-- ## Tier classifier (src/backend/services/pdf_service.py)

/-- Tier group (pdf_service.py `TierGroup`): tier, title, description,
opportunities, color. -/
structure TierGroup where
  tier : Nat
  title : String
  description : String
  opportunities : List SavingsOpportunity
  color : String
deriving DecidableEq

/-- The per-opportunity loop of `organize_opportunities_into_tiers`
(pdf_service.py lines 36-62), translated as a structural right fold that
fills the four non-empty buckets (tier2, tier3, tier4, tier5) in input
order; tier1 is never appended to. -/
def tierBuckets : List SavingsOpportunity →
    List SavingsOpportunity × List SavingsOpportunity × List SavingsOpportunity × List SavingsOpportunity
  | [] => ([], [], [], [])
  | opp :: rest =>
    let acc := tierBuckets rest
    let t2 := acc.1
    let t3 := acc.2.1
    let t4 := acc.2.2.1
    let t5 := acc.2.2.2
    if opp.upfrontCost.max = 0 ∧
        (pyIn "audit" (pyLower opp.name) ∨ pyIn "weatherization" (pyLower opp.name) ∨
         pyIn "assistance" (pyLower opp.name)) then
      (opp :: t2, t3, t4, t5)
    else if opp.upfrontCost.max ≤ 200 ∧
        (pyIn "water conservation kit" (pyLower opp.name) ∨ pyIn "led" (pyLower opp.name) ∨
         pyIn "power strip" (pyLower opp.name)) then
      (t2, opp :: t3, t4, t5)
    else if 200 < opp.upfrontCost.max ∧ opp.upfrontCost.max ≤ 3000 then
      (t2, t3, opp :: t4, t5)
    else if 3000 < opp.upfrontCost.max then
      (t2, t3, t4, opp :: t5)
    else if opp.upfrontCost.max = 0 then
      (opp :: t2, t3, t4, t5)
    else
      (t2, t3, opp :: t4, t5)

/-- Embedding of `organize_opportunities_into_tiers` (pdf_service.py lines
26-100): run the loop, then build the fixed 5-element TierGroup list. -/
def organize_opportunities_into_tiers (opportunities : List SavingsOpportunity) : List TierGroup :=
  let tier1 : List SavingsOpportunity := []
  let acc := tierBuckets opportunities
  [TierGroup.mk 1 "Instant Visibility (Near-Zero Cost)"
     "Set up tracking and establish your baseline. You can\x27t manage what you don\x27t measure."
     tier1 "green",
   TierGroup.mk 2 "Free In-Home Checks & Diagnostics"
     "Get professional assessments and qualify for free upgrades at no cost."
     acc.1 "blue",
   TierGroup.mk 3 "Data-Driven Behavior & Low-Cost Controls"
     "Use your baseline data to make smart, low-cost changes with immediate impact."
     acc.2.1 "yellow",
   TierGroup.mk 4 "Targeted Low/Medium-Cost Upgrades"
     "Invest in upgrades that your data shows will have the best ROI."
     acc.2.2.1 "orange",
   TierGroup.mk 5 "Major Projects Informed by Data"
     "After 3-6 months of tracking, consider major investments with proven payback."
     acc.2.2.2 "purple"]

-- ## Utility lookup service (src/backend/services/utility_lookup_service.py)

/-- Utility type enum (utility_lookup_service.py `UtilityType`). -/
inductive UtilityType
  | electric | gas | water
deriving DecidableEq

/-- Utility provider record (utility_lookup_service.py `UtilityProvider`). -/
structure UtilityProvider where
  name : String
  utility_type : UtilityType
  service_area : String
  website : String
  programs_url : Option String
  rebates_url : Option String
  phone : Option String
deriving DecidableEq

/-- ELECTRIC_UTILITIES["SCE"]. -/
def SCE : UtilityProvider :=
  UtilityProvider.mk "Southern California Edison" .electric
    "Southern California (excluding LA City, San Diego, includes Irvine)"
    "https://www.sce.com"
    (some "https://www.sce.com/residential/rebates-savings")
    (some "https://www.sce.com/residential/rebates-savings/rebates-by-product")
    (some "1-800-655-4555")

/-- ELECTRIC_UTILITIES["PGE"]. -/
def PGE : UtilityProvider :=
  UtilityProvider.mk "Pacific Gas and Electric" .electric
    "Northern and Central California"
    "https://www.pge.com"
    (some "https://www.pge.com/en_US/residential/save-energy-money/savings-solutions-and-rebates/savings-solutions-and-rebates.page")
    (some "https://www.pge.com/en_US/residential/save-energy-money/savings-solutions-and-rebates/rebates-and-incentives/rebates-and-incentives.page")
    (some "1-800-743-5000")

/-- ELECTRIC_UTILITIES["SDGE"]. -/
def SDGE : UtilityProvider :=
  UtilityProvider.mk "San Diego Gas & Electric" .electric
    "San Diego and southern Orange County"
    "https://www.sdge.com"
    (some "https://www.sdge.com/residential/savings-center")
    (some "https://www.sdge.com/residential/savings-center/rebates-incentives")
    (some "1-800-411-7343")

/-- ELECTRIC_UTILITIES["LADWP"]. -/
def LADWP : UtilityProvider :=
  UtilityProvider.mk "Los Angeles Department of Water and Power" .electric
    "City of Los Angeles"
    "https://www.ladwp.com"
    (some "https://www.ladwp.com/ladwp/faces/ladwp/residential/r-savemoney")
    (some "https://www.ladwp.com/ladwp/faces/ladwp/residential/r-savemoney/r-sm-rebatesandprograms")
    (some "1-800-342-5397")

/-- ELECTRIC_UTILITIES["SMUD"]. -/
def SMUD : UtilityProvider :=
  UtilityProvider.mk "Sacramento Municipal Utility District" .electric
    "Sacramento County"
    "https://www.smud.org"
    (some "https://www.smud.org/en/Rate-Information/Residential-rates/Rebates-and-programs")
    (some "https://www.smud.org/en/Rate-Information/Residential-rates/Rebates-and-programs")
    (some "1-888-742-7683")

/-- GAS_UTILITIES["SOCALGAS"]. -/
def SOCALGAS : UtilityProvider :=
  UtilityProvider.mk "Southern California Gas Company" .gas
    "Southern California"
    "https://www.socalgas.com"
    (some "https://www.socalgas.com/save-money-and-energy")
    (some "https://www.socalgas.com/save-money-and-energy/rebates-and-incentives")
    (some "1-877-238-0092")

/-- GAS_UTILITIES["PGE_GAS"]. -/
def PGE_GAS : UtilityProvider :=
  UtilityProvider.mk "Pacific Gas and Electric" .gas
    "Northern and Central California"
    "https://www.pge.com"
    (some "https://www.pge.com/en_US/residential/save-energy-money/savings-solutions-and-rebates/savings-solutions-and-rebates.page")
    (some "https://www.pge.com/en_US/residential/save-energy-money/savings-solutions-and-rebates/rebates-and-incentives/rebates-and-incentives.page")
    (some "1-800-743-5000")

/-- GAS_UTILITIES["SDGE_GAS"]. -/
def SDGE_GAS : UtilityProvider :=
  UtilityProvider.mk "San Diego Gas & Electric" .gas
    "San Diego and southern Orange County"
    "https://www.sdge.com"
    (some "https://www.sdge.com/residential/savings-center")
    (some "https://www.sdge.com/residential/savings-center/rebates-incentives")
    (some "1-800-411-7343")

/-- WATER_UTILITIES["IRWD"]. -/
def IRWD : UtilityProvider :=
  UtilityProvider.mk "Irvine Ranch Water District" .water
    "Irvine and surrounding areas"
    "https://www.irwd.com"
    (some "https://www.irwd.com/save-water-money")
    (some "https://www.irwd.com/save-water-money/rebates")
    (some "1-949-453-5300")

/-- WATER_UTILITIES["LADWP_WATER"]. -/
def LADWP_WATER : UtilityProvider :=
  UtilityProvider.mk "Los Angeles Department of Water and Power" .water
    "City of Los Angeles"
    "https://www.ladwp.com"
    (some "https://www.ladwp.com/ladwp/faces/ladwp/residential/r-savemoney/r-sm-watersavingprograms")
    (some "https://www.ladwp.com/ladwp/faces/ladwp/residential/r-savemoney/r-sm-rebatesandprograms")
    (some "1-800-342-5397")

/-- WATER_UTILITIES["EBMUD"]. -/
def EBMUD : UtilityProvider :=
  UtilityProvider.mk "East Bay Municipal Utility District" .water
    "East Bay Area"
    "https://www.ebmud.com"
    (some "https://www.ebmud.com/water/conservation-and-rebates/")
    (some "https://www.ebmud.com/water/conservation-and-rebates/residential-rebates/")
    (some "1-866-403-2683")

/-- WATER_UTILITIES["SDCWA"]. -/
def SDCWA : UtilityProvider :=
  UtilityProvider.mk "San Diego County Water Authority" .water
    "San Diego County"
    "https://www.sdcwa.org"
    (some "https://www.sdcwa.org/conservation")
    (some "https://www.sdcwa.org/conservation-rebates")
    (some "1-858-522-6700")

/-- WATER_UTILITIES["MWD"]. -/
def MWD : UtilityProvider :=
  UtilityProvider.mk "Metropolitan Water District of Southern California" .water
    "Southern California (regional)"
    "https://www.mwdh2o.com"
    (some "https://www.bewaterwise.com")
    (some "https://www.bewaterwise.com/rebates")
    (some "1-800-CALL-MWD")

/-- SERVICE_AREA_BOUNDARIES (utility_lookup_service.py lines 165-184):
(min_lat, max_lat, min_lon, max_lon) per utility code. -/
def SERVICE_AREA_BOUNDARIES : String → Option (ℚ × ℚ × ℚ × ℚ)
  | "LADWP" => some (33.7, 34.35, -118.67, -118.15)
  | "SCE" => some (33.0, 35.5, -119.5, -117.0)
  | "SDGE" => some (32.5, 33.5, -117.5, -116.5)
  | "PGE" => some (36.0, 42.0, -124.0, -119.0)
  | "SMUD" => some (38.3, 38.8, -121.6, -121.0)
  | "SOCALGAS" => some (33.0, 35.5, -119.5, -117.0)
  | "PGE_GAS" => some (36.0, 42.0, -124.0, -119.0)
  | "SDGE_GAS" => some (32.5, 33.5, -117.5, -116.5)
  | "IRWD" => some (33.6, 33.8, -117.9, -117.7)
  | "LADWP_WATER" => some (33.7, 34.35, -118.67, -118.15)
  | "EBMUD" => some (37.7, 38.0, -122.4, -121.8)
  | "SDCWA" => some (32.5, 33.5, -117.5, -116.5)
  | "MWD" => some (33.0, 34.5, -119.0, -117.0)
  | _ => none

/-- Embedding of `_is_in_service_area` (utility_lookup_service.py lines
193-199): unknown codes are outside; known codes use the inclusive
bounding-box test. -/
def _is_in_service_area (lat lon : ℚ) (utility_code : String) : Prop :=
  match SERVICE_AREA_BOUNDARIES utility_code with
  | none => False
  | some (min_lat, max_lat, min_lon, max_lon) =>
      min_lat ≤ lat ∧ lat ≤ max_lat ∧ min_lon ≤ lon ∧ lon ≤ max_lon

instance (lat lon : ℚ) (utility_code : String) : Decidable (_is_in_service_area lat lon utility_code) := by
  unfold _is_in_service_area
  match SERVICE_AREA_BOUNDARIES utility_code with
  | none => exact inferInstanceAs (Decidable False)
  | some (a, b, c, d) => exact inferInstanceAs (Decidable (_ ∧ _ ∧ _ ∧ _))

/-- Embedding of `_detect_electric_utility` (utility_lookup_service.py lines
201-232). The two nested city-match rules (SMUD, SDGE) fall through to the
next rule when the bounding box fails, which the flattened conjunctions
preserve. -/
def _detect_electric_utility (lat lon : ℚ) (city county : String) : Option UtilityProvider :=
  let city_lower := pyLower city
  let county_lower := pyLower county
  if pyIn "los angeles" city_lower ∧ _is_in_service_area lat lon "LADWP" then some LADWP
  else if (pyIn "sacramento" city_lower ∨ pyIn "sacramento" county_lower) ∧
      _is_in_service_area lat lon "SMUD" then some SMUD
  else if (pyIn "san diego" county_lower ∨ pyIn "san diego" city_lower) ∧
      _is_in_service_area lat lon "SDGE" then some SDGE
  else if _is_in_service_area lat lon "PGE" then some PGE
  else if _is_in_service_area lat lon "SCE" then some SCE
  else if lat < 36.0 then some SCE
  else some PGE

/-- Embedding of `_detect_gas_utility` (utility_lookup_service.py lines
234-256). -/
def _detect_gas_utility (lat lon : ℚ) (city county : String) : Option UtilityProvider :=
  let city_lower := pyLower city
  let county_lower := pyLower county
  if (pyIn "san diego" county_lower ∨ pyIn "san diego" city_lower) ∧
      _is_in_service_area lat lon "SDGE_GAS" then some SDGE_GAS
  else if _is_in_service_area lat lon "PGE_GAS" then some PGE_GAS
  else if _is_in_service_area lat lon "SOCALGAS" then some SOCALGAS
  else if lat < 36.0 then some SOCALGAS
  else some PGE_GAS

/-- Embedding of `_detect_water_utility` (utility_lookup_service.py lines
258-286); no fallback, returns none when no rule matches. -/
def _detect_water_utility (lat lon : ℚ) (city county : String) : Option UtilityProvider :=
  let city_lower := pyLower city
  let county_lower := pyLower county
  if pyIn "irvine" city_lower ∧ _is_in_service_area lat lon "IRWD" then some IRWD
  else if pyIn "los angeles" city_lower ∧ _is_in_service_area lat lon "LADWP_WATER" then
    some LADWP_WATER
  else if (pyIn "oakland" city_lower ∨ pyIn "berkeley" city_lower ∨ pyIn "richmond" city_lower) ∧
      _is_in_service_area lat lon "EBMUD" then some EBMUD
  else if pyIn "san diego" county_lower ∧ _is_in_service_area lat lon "SDCWA" then some SDCWA
  else if _is_in_service_area lat lon "MWD" then some MWD
  else none

/-- The dictionary returned by `lookup_utilities`: electric, gas, water slots. -/
structure UtilityLookupResult where
  electric : Option UtilityProvider
  gas : Option UtilityProvider
  water : Option UtilityProvider
deriving DecidableEq

/-- Embedding of `lookup_utilities` (utility_lookup_service.py lines
288-336): the non-California guard, then the three detectors. The Python
`try/except` around the pure detectors can never fire and is not modelled. -/
def lookup_utilities (latitude longitude : ℚ) (city county state : String) : UtilityLookupResult :=
  if ¬ (["california", "ca", ""].contains (pyLower state) = true) then
    UtilityLookupResult.mk none none none
  else
    UtilityLookupResult.mk
      (_detect_electric_utility latitude longitude city county)
      (_detect_gas_utility latitude longitude city county)
      (_detect_water_utility latitude longitude city county)

-- ## Utility program service (src/backend/services/utility_program_service.py)

/-- Program category enum (utility_program_service.py `ProgramCategory`). -/
inductive ProgramCategory
  | energy_efficiency | solar | water_conservation | weatherization
  | appliance_rebate | hvac | insulation
deriving DecidableEq

/-- Utility program record (utility_program_service.py `UtilityProgram`). -/
structure UtilityProgram where
  name : String
  category : ProgramCategory
  description : String
  rebate_amount : Option String
  eligibility : List String
  application_url : String
  phone : Option String
  income_qualified : Bool
  notes : Option String
deriving DecidableEq

/-- SCE_PROGRAMS (utility_program_service.py lines 43-81). -/
def SCE_PROGRAMS : List UtilityProgram :=
  [UtilityProgram.mk "Home Energy Advisor" .energy_efficiency
     "Free online tool and personalized recommendations for energy savings"
     (some "Free") ["All SCE residential customers"]
     "https://www.sce.com/residential/rebates-savings/home-energy-advisor"
     (some "1-800-655-4555") false none,
   UtilityProgram.mk "Smart Thermostat Rebate" .hvac
     "Rebate for purchasing and installing qualifying smart thermostats"
     (some "$75-$120") ["SCE residential customers", "Must purchase qualifying ENERGY STAR thermostat"]
     "https://www.sce.com/residential/rebates-savings/rebates-by-product/smart-thermostat"
     (some "1-800-655-4555") false none,
   UtilityProgram.mk "Energy Savings Assistance Program" .weatherization
     "Free energy-saving improvements for income-qualified customers"
     (some "Free") ["Income at or below 200% of federal poverty guidelines"]
     "https://www.sce.com/residential/assistance/energy-savings-assistance-program"
     (some "1-800-655-4555") true none,
   UtilityProgram.mk "Appliance Rebates" .appliance_rebate
     "Rebates for energy-efficient appliances including refrigerators, washers, and pool pumps"
     (some "$50-$400") ["SCE residential customers", "Must purchase qualifying ENERGY STAR appliances"]
     "https://www.sce.com/residential/rebates-savings/rebates-by-product"
     (some "1-800-655-4555") false none]

/-- PGE_PROGRAMS (utility_program_service.py lines 84-113). -/
def PGE_PROGRAMS : List UtilityProgram :=
  [UtilityProgram.mk "Home Energy Checkup" .energy_efficiency
     "Free in-home energy assessment with instant savings measures"
     (some "Free") ["All PG&E residential customers"]
     "https://www.pge.com/en_US/residential/save-energy-money/savings-solutions-and-rebates/home-energy-checkup/home-energy-checkup.page"
     (some "1-800-743-5000") false none,
   UtilityProgram.mk "Energy Efficiency Rebates" .appliance_rebate
     "Rebates for energy-efficient appliances, HVAC, and water heaters"
     (some "$50-$6,000") ["PG&E residential customers", "Varies by product"]
     "https://www.pge.com/en_US/residential/save-energy-money/savings-solutions-and-rebates/rebates-and-incentives/rebates-and-incentives.page"
     (some "1-800-743-5000") false none,
   UtilityProgram.mk "Energy Savings Assistance Program" .weatherization
     "Free weatherization and energy efficiency upgrades for income-qualified households"
     (some "Free") ["Income at or below 200% of federal poverty guidelines"]
     "https://www.pge.com/en_US/residential/save-energy-money/help-paying-your-bill/longer-term-assistance/energy-savings-assistance-program/energy-savings-assistance-program.page"
     (some "1-866-743-2752") true none]

/-- SDGE_PROGRAMS (utility_program_service.py lines 116-145). -/
def SDGE_PROGRAMS : List UtilityProgram :=
  [UtilityProgram.mk "Home Energy Savings Program" .energy_efficiency
     "Free home energy assessment and instant savings measures"
     (some "Free") ["All SDG&E residential customers"]
     "https://www.sdge.com/residential/savings-center/energy-management-programs/home-energy-savings-program"
     (some "1-800-411-7343") false none,
   UtilityProgram.mk "Appliance Rebates" .appliance_rebate
     "Rebates for ENERGY STAR appliances and equipment"
     (some "$50-$3,000") ["SDG&E residential customers", "Must purchase qualifying products"]
     "https://www.sdge.com/residential/savings-center/rebates-incentives"
     (some "1-800-411-7343") false none,
   UtilityProgram.mk "Energy Savings Assistance Program" .weatherization
     "Free energy efficiency improvements for income-qualified customers"
     (some "Free") ["Income at or below 200% of federal poverty guidelines"]
     "https://www.sdge.com/residential/savings-center/energy-assistance-programs/energy-savings-assistance-program"
     (some "1-877-646-5525") true none]

/-- LADWP_PROGRAMS (utility_program_service.py lines 148-186). -/
def LADWP_PROGRAMS : List UtilityProgram :=
  [UtilityProgram.mk "Refrigerator Exchange Program" .appliance_rebate
     "Free pickup and recycling of old refrigerator plus $50 incentive"
     (some "$50") ["LADWP residential customers", "Working refrigerator 10+ years old"]
     "https://www.ladwp.com/ladwp/faces/ladwp/residential/r-savemoney/r-sm-rebatesandprograms/r-sm-rp-appliancerecycling"
     (some "1-800-246-0441") false none,
   UtilityProgram.mk "Residential Lighting Rebate" .energy_efficiency
     "Rebates for LED bulbs and fixtures"
     (some "Varies") ["LADWP residential customers"]
     "https://www.ladwp.com/ladwp/faces/ladwp/residential/r-savemoney/r-sm-rebatesandprograms"
     (some "1-800-342-5397") false none,
   UtilityProgram.mk "Turf Replacement Program" .water_conservation
     "Rebate for replacing grass with water-efficient landscaping"
     (some "$3 per square foot") ["LADWP water customers", "Minimum 500 sqft removal"]
     "https://www.ladwp.com/ladwp/faces/ladwp/residential/r-savemoney/r-sm-watersavingprograms/r-sm-wsp-turfreplacement"
     (some "1-800-544-4498") false none,
   UtilityProgram.mk "Energy Efficiency Assistance Program" .weatherization
     "Free weatherization and energy efficiency upgrades for income-qualified customers"
     (some "Free") ["Income at or below 200% of federal poverty guidelines"]
     "https://www.ladwp.com/ladwp/faces/ladwp/residential/r-savemoney/r-sm-rebatesandprograms"
     (some "1-800-342-5397") true none]

/-- SOCALGAS_PROGRAMS (utility_program_service.py lines 189-218). -/
def SOCALGAS_PROGRAMS : List UtilityProgram :=
  [UtilityProgram.mk "Energy Savings Assistance Program" .weatherization
     "Free energy-saving improvements for income-qualified customers"
     (some "Free") ["Income at or below 200% of federal poverty guidelines"]
     "https://www.socalgas.com/save-money-and-energy/assistance-programs/energy-savings-assistance-program"
     (some "1-800-331-7593") true none,
   UtilityProgram.mk "Water Heater Rebate" .appliance_rebate
     "Rebates for high-efficiency water heaters"
     (some "$300-$1,800") ["SoCalGas residential customers", "Must install qualifying equipment"]
     "https://www.socalgas.com/save-money-and-energy/rebates-and-incentives/water-heating"
     (some "1-877-238-0092") false none,
   UtilityProgram.mk "Furnace Rebate" .hvac
     "Rebates for high-efficiency furnaces"
     (some "$300-$800") ["SoCalGas residential customers", "Must install qualifying ENERGY STAR furnace"]
     "https://www.socalgas.com/save-money-and-energy/rebates-and-incentives/heating-and-cooling"
     (some "1-877-238-0092") false none]

/-- SMUD_PROGRAMS (utility_program_service.py lines 221-240). -/
def SMUD_PROGRAMS : List UtilityProgram :=
  [UtilityProgram.mk "Home Performance Program" .energy_efficiency
     "Comprehensive home energy assessment and rebates for improvements"
     (some "Up to $4,500") ["SMUD residential customers"]
     "https://www.smud.org/en/Rate-Information/Residential-rates/Rebates-and-programs/Home-Performance-Program"
     (some "1-888-742-7683") false none,
   UtilityProgram.mk "Appliance Rebates" .appliance_rebate
     "Rebates for energy-efficient appliances"
     (some "$50-$300") ["SMUD residential customers", "Must purchase qualifying appliances"]
     "https://www.smud.org/en/Rate-Information/Residential-rates/Rebates-and-programs"
     (some "1-888-742-7683") false none]

/-- MWD_PROGRAMS (utility_program_service.py lines 243-262). -/
def MWD_PROGRAMS : List UtilityProgram :=
  [UtilityProgram.mk "Turf Replacement Program" .water_conservation
     "Rebate for replacing grass with water-efficient landscaping"
     (some "$2 per square foot") ["MWD member agency customers", "Minimum 500 sqft removal"]
     "https://www.bewaterwise.com/turf-replacement"
     (some "1-800-CALL-MWD") false none,
   UtilityProgram.mk "Water Conservation Devices" .water_conservation
     "Rebates for water-efficient devices and fixtures"
     (some "Varies") ["MWD member agency customers"]
     "https://www.bewaterwise.com/rebates"
     (some "1-800-CALL-MWD") false none]

/-- Embedding of `get_programs_for_utility` (utility_program_service.py
lines 271-300): case-insensitive substring dispatch on the provider name,
first match wins, empty list when nothing matches. -/
def get_programs_for_utility (utility_provider : UtilityProvider) : List UtilityProgram :=
  let utility_name := pyLower utility_provider.name
  if pyIn "southern california edison" utility_name ∨ pyIn "sce" utility_name then
    SCE_PROGRAMS
  else if pyIn "pacific gas and electric" utility_name ∨ pyIn "pg&e" utility_name ∨
      pyIn "pge" utility_name then
    PGE_PROGRAMS
  else if pyIn "san diego gas" utility_name ∨ pyIn "sdg&e" utility_name then
    SDGE_PROGRAMS
  else if pyIn "los angeles department of water and power" utility_name ∨
      pyIn "ladwp" utility_name then
    LADWP_PROGRAMS
  else if pyIn "southern california gas" utility_name ∨ pyIn "socalgas" utility_name then
    SOCALGAS_PROGRAMS
  else if pyIn "sacramento municipal" utility_name ∨ pyIn "smud" utility_name then
    SMUD_PROGRAMS
  else if pyIn "metropolitan water district" utility_name ∨ pyIn "mwd" utility_name then
    MWD_PROGRAMS
  else
    []

/-- Embedding of `get_programs_by_category` (utility_program_service.py
lines 302-318): filter the provider's programs by exact category equality. -/
def get_programs_by_category (utility_provider : UtilityProvider)
    (category : ProgramCategory) : List UtilityProgram :=
  (get_programs_for_utility utility_provider).filter (fun p => decide (p.category = category))

-- ## Claim-side definitions (written from the specification text)

/-- Tier assignment as worded in the spec (section 4.4): first matching rule
wins, evaluated in this order. Used to compare against
`organize_opportunities_into_tiers`. -/
def specTier (o : SavingsOpportunity) : Nat :=
  if o.upfrontCost.max = 0 ∧
      (pyIn "audit" (pyLower o.name) ∨ pyIn "weatherization" (pyLower o.name) ∨
       pyIn "assistance" (pyLower o.name)) then 2
  else if o.upfrontCost.max ≤ 200 ∧
      (pyIn "water conservation kit" (pyLower o.name) ∨ pyIn "led" (pyLower o.name) ∨
       pyIn "power strip" (pyLower o.name)) then 3
  else if 200 < o.upfrontCost.max ∧ o.upfrontCost.max ≤ 3000 then 4
  else if o.upfrontCost.max > 3000 then 5
  else if o.upfrontCost.max = 0 then 2
  else 4

/-- The opportunity id sequence the spec promises from `generateOpportunities`:
the fixed template order with the three conditional gates. -/
def specIdList (p : PropertyData) : List String :=
  ["energy-audit", "water-kit", "led-lighting", "power-strips", "weatherization",
   "smart-thermostat", "turf-removal"]
  ++ (if p.yearBuilt < 1980 then ["attic-insulation"] else [])
  ++ (if p.solarFeasibilityScore > 70 then ["solar-installation"] else [])
  ++ ["heat-pump-water-heater"]
  ++ (if p.yearBuilt < 1990 then ["window-replacement"] else [])

/-- A concrete property value used for boundary instances, with adjustable
year built and solar feasibility score. -/
def sampleProperty (yb : Int) (solar : ℚ) : PropertyData :=
  PropertyData.mk "123 Main St, Los Angeles, CA" yb 1500 3 2 5000
    500000 450000 5600 "LADWP" none none none .Low 10 solar []

/-- The provider-name fragment table the spec describes for the program
catalog, in its fixed priority order. -/
def PROVIDER_FRAGMENTS : List (List String × List UtilityProgram) :=
  [(["southern california edison", "sce"], SCE_PROGRAMS),
   (["pacific gas and electric", "pg&e", "pge"], PGE_PROGRAMS),
   (["san diego gas", "sdg&e"], SDGE_PROGRAMS),
   (["los angeles department of water and power", "ladwp"], LADWP_PROGRAMS),
   (["southern california gas", "socalgas"], SOCALGAS_PROGRAMS),
   (["sacramento municipal", "smud"], SMUD_PROGRAMS),
   (["metropolitan water district", "mwd"], MWD_PROGRAMS)]

/-- First-match lookup over a fragment table: return the program list of the
first entry one of whose fragments is a case-insensitive substring of the
provider name; empty list when no fragment matches. -/
def firstFragmentMatch (name : String) :
    List (List String × List UtilityProgram) → List UtilityProgram
  | [] => []
  | (frags, progs) :: rest =>
      if frags.any (fun f => pyIn f (pyLower name)) then progs
      else firstFragmentMatch name rest

/-- `programsFor` as worded in the spec (section 4.2): case-insensitive
substring test against the fixed fragment set, in fixed priority order. -/
def programsForSpec (utility_provider : UtilityProvider) : List UtilityProgram :=
  firstFragmentMatch utility_provider.name PROVIDER_FRAGMENTS

/-- The water rules of the spec (section 4.1): a named-city rule or water
bounding box matches. When this fails the water slot must be absent. -/
def waterRuleMatches (lat lon : ℚ) (city county : String) : Prop :=
  (pyIn "irvine" (pyLower city) ∧ _is_in_service_area lat lon "IRWD") ∨
  (pyIn "los angeles" (pyLower city) ∧ _is_in_service_area lat lon "LADWP_WATER") ∨
  ((pyIn "oakland" (pyLower city) ∨ pyIn "berkeley" (pyLower city) ∨
    pyIn "richmond" (pyLower city)) ∧ _is_in_service_area lat lon "EBMUD") ∨
  (pyIn "san diego" (pyLower county) ∧ _is_in_service_area lat lon "SDCWA") ∨
  _is_in_service_area lat lon "MWD"

-- ## Helper lemmas

/-- The classifier loop computes exactly the four `specTier` filters, in
input order. -/
theorem tierBuckets_eq_filters (l : List SavingsOpportunity) :
    tierBuckets l =
      (l.filter (fun o => specTier o == 2), l.filter (fun o => specTier o == 3),
       l.filter (fun o => specTier o == 4), l.filter (fun o => specTier o == 5)) := by
  induction l with
  | nil => rfl
  | cons a t ih =>
    simp only [tierBuckets, ih, List.filter_cons]
    by_cases h1 : a.upfrontCost.max = 0 ∧
        (pyIn "audit" (pyLower a.name) ∨ pyIn "weatherization" (pyLower a.name) ∨
         pyIn "assistance" (pyLower a.name))
    · have hs : specTier a = 2 := by unfold specTier; rw [if_pos h1]
      simp [h1, hs]
    by_cases h2 : a.upfrontCost.max ≤ 200 ∧
        (pyIn "water conservation kit" (pyLower a.name) ∨ pyIn "led" (pyLower a.name) ∨
         pyIn "power strip" (pyLower a.name))
    · have hs : specTier a = 3 := by unfold specTier; rw [if_neg h1, if_pos h2]
      simp [h1, h2, hs]
    by_cases h3 : 200 < a.upfrontCost.max ∧ a.upfrontCost.max ≤ 3000
    · have hs : specTier a = 4 := by unfold specTier; rw [if_neg h1, if_neg h2, if_pos h3]
      simp [h1, h2, h3, hs]
    by_cases h4 : a.upfrontCost.max > 3000
    · have hs : specTier a = 5 := by
        unfold specTier; rw [if_neg h1, if_neg h2, if_neg h3, if_pos h4]
      simp [h1, h2, h3, h4, hs]
    by_cases h5 : a.upfrontCost.max = 0
    · have hs : specTier a = 2 := by
        unfold specTier; rw [if_neg h1, if_neg h2, if_neg h3, if_neg h4, if_pos h5]
      have hk : ¬(pyIn "water conservation kit" (pyLower a.name) = true ∨
          pyIn "led" (pyLower a.name) = true ∨ pyIn "power strip" (pyLower a.name) = true) := by
        intro hc
        exact h2 ⟨by rw [h5]; norm_num, hc⟩
      simp [h1, h2, h3, h4, h5, hs, hk]
      intros
      norm_num
    · have hs : specTier a = 4 := by
        unfold specTier; rw [if_neg h1, if_neg h2, if_neg h3, if_neg h4, if_neg h5]
      simp [h1, h2, h3, h4, h5, hs]

theorem energyAuditOpp_id (p : PropertyData) : (energyAuditOpp p).id = "energy-audit" := rfl

theorem waterKitOpp_id (p : PropertyData) : (waterKitOpp p).id = "water-kit" := rfl

theorem weatherizationOpp_id (p : PropertyData) : (weatherizationOpp p).id = "weatherization" := rfl

theorem solarInstallationOpp_id (p : PropertyData) :
    (solarInstallationOpp p).id = "solar-installation" := rfl

/-- The id sequence of `generate_opportunities` is exactly the spec's fixed
template order with the three conditional gates. -/
theorem generate_opportunities_map_id (p : PropertyData) :
    (generate_opportunities p).map (fun o => o.id) = specIdList p := by
  unfold generate_opportunities specIdList
  split_ifs <;>
    simp [energyAuditOpp_id, waterKitOpp_id, weatherizationOpp_id, solarInstallationOpp_id,
      ledLightingOpp, powerStripsOpp, smartThermostatOpp, turfRemovalOpp,
      atticInsulationOpp, heatPumpWaterHeaterOpp, windowReplacementOpp]

/-- A minimal opportunity whose name contains "led", with adjustable max cost,
for the tier-3/tier-4 boundary instances. -/
def ledBoundaryOpp (m : ℚ) : SavingsOpportunity :=
  SavingsOpportunity.mk "led-test" .energy "Convert to LED Lighting" 0 (UpfrontCost.mk 0 m)
    [] 0 .DIY 0 [] [] "" none

/-- C1: classify assigns each opportunity to a tier by the first matching
rule of the spec's six-rule cascade, evaluated in input order (each tier list
is the in-order filter of the opportunities whose first matching rule is that
tier); an opportunity named with "led" and max cost 200 lands in Tier 3,
and with max cost 201 in Tier 4. -/
theorem C1_tier_rules_first_match :
    (∀ opps : List SavingsOpportunity,
      organize_opportunities_into_tiers opps =
        [TierGroup.mk 1 "Instant Visibility (Near-Zero Cost)"
           "Set up tracking and establish your baseline. You can\x27t manage what you don\x27t measure."
           [] "green",
         TierGroup.mk 2 "Free In-Home Checks & Diagnostics"
           "Get professional assessments and qualify for free upgrades at no cost."
           (opps.filter (fun o => specTier o == 2)) "blue",
         TierGroup.mk 3 "Data-Driven Behavior & Low-Cost Controls"
           "Use your baseline data to make smart, low-cost changes with immediate impact."
           (opps.filter (fun o => specTier o == 3)) "yellow",
         TierGroup.mk 4 "Targeted Low/Medium-Cost Upgrades"
           "Invest in upgrades that your data shows will have the best ROI."
           (opps.filter (fun o => specTier o == 4)) "orange",
         TierGroup.mk 5 "Major Projects Informed by Data"
           "After 3-6 months of tracking, consider major investments with proven payback."
           (opps.filter (fun o => specTier o == 5)) "purple"]) ∧
    (organize_opportunities_into_tiers [ledBoundaryOpp 200]).map (fun tg => tg.opportunities) =
      [[], [], [ledBoundaryOpp 200], [], []] ∧
    (organize_opportunities_into_tiers [ledBoundaryOpp 201]).map (fun tg => tg.opportunities) =
      [[], [], [], [ledBoundaryOpp 201], []] := by
  refine ⟨fun opps => ?_, ?_, ?_⟩
  · unfold organize_opportunities_into_tiers
    rw [tierBuckets_eq_filters]
  · have h2 : specTier (ledBoundaryOpp 200) = 3 := by
      unfold specTier ledBoundaryOpp
      rw [if_neg (by norm_num), if_pos]
      refine ⟨by norm_num, Or.inr (Or.inl ?_)⟩
      decide
    unfold organize_opportunities_into_tiers
    rw [tierBuckets_eq_filters]
    simp [h2]
  · have h2 : specTier (ledBoundaryOpp 201) = 4 := by
      unfold specTier ledBoundaryOpp
      rw [if_neg (by norm_num), if_neg (by norm_num), if_pos (by norm_num)]
    unfold organize_opportunities_into_tiers
    rw [tierBuckets_eq_filters]
    simp [h2]

/-- C8: the classifier never assigns an opportunity to Tier 1 — for every
input list the first returned tier group is tier 1 with an empty
opportunity list (and its fixed title/description/color). -/
theorem C8_tier1_always_empty (opps : List SavingsOpportunity) :
    (organize_opportunities_into_tiers opps).head? =
      some (TierGroup.mk 1 "Instant Visibility (Near-Zero Cost)"
        "Set up tracking and establish your baseline. You can\x27t manage what you don\x27t measure."
        [] "green") := rfl

/-- Tier group 1 as built by the classifier (always empty). -/
def tier1Group : TierGroup :=
  TierGroup.mk 1 "Instant Visibility (Near-Zero Cost)"
    "Set up tracking and establish your baseline. You can\x27t manage what you don\x27t measure."
    [] "green"

/-- Tier group 2 as built by the classifier. -/
def tier2Group (l : List SavingsOpportunity) : TierGroup :=
  TierGroup.mk 2 "Free In-Home Checks & Diagnostics"
    "Get professional assessments and qualify for free upgrades at no cost."
    (l.filter (fun o => specTier o == 2)) "blue"

/-- Tier group 3 as built by the classifier. -/
def tier3Group (l : List SavingsOpportunity) : TierGroup :=
  TierGroup.mk 3 "Data-Driven Behavior & Low-Cost Controls"
    "Use your baseline data to make smart, low-cost changes with immediate impact."
    (l.filter (fun o => specTier o == 3)) "yellow"

/-- Tier group 4 as built by the classifier. -/
def tier4Group (l : List SavingsOpportunity) : TierGroup :=
  TierGroup.mk 4 "Targeted Low/Medium-Cost Upgrades"
    "Invest in upgrades that your data shows will have the best ROI."
    (l.filter (fun o => specTier o == 4)) "orange"

/-- Tier group 5 as built by the classifier. -/
def tier5Group (l : List SavingsOpportunity) : TierGroup :=
  TierGroup.mk 5 "Major Projects Informed by Data"
    "After 3-6 months of tracking, consider major investments with proven payback."
    (l.filter (fun o => specTier o == 5)) "purple"

theorem organize_eq_tierGroups (l : List SavingsOpportunity) :
    organize_opportunities_into_tiers l =
      [tier1Group, tier2Group l, tier3Group l, tier4Group l, tier5Group l] := by
  unfold organize_opportunities_into_tiers tier1Group tier2Group tier3Group tier4Group tier5Group
  rw [tierBuckets_eq_filters]

theorem specTier_cases (o : SavingsOpportunity) :
    specTier o = 2 ∨ specTier o = 3 ∨ specTier o = 4 ∨ specTier o = 5 := by
  unfold specTier
  split_ifs <;> simp

theorem tier_filters_perm (l : List SavingsOpportunity) :
    List.Perm
      (l.filter (fun o => specTier o == 2) ++ (l.filter (fun o => specTier o == 3) ++
       (l.filter (fun o => specTier o == 4) ++ l.filter (fun o => specTier o == 5)))) l := by
  induction l with
  | nil => simp
  | cons a t ih =>
    rcases specTier_cases a with h | h | h | h
    · simp only [List.filter_cons, h, List.cons_append]
      norm_num
      exact ih
    · simp only [List.filter_cons, h, List.cons_append]
      norm_num
      exact List.perm_middle.trans (ih.cons a)
    · simp only [List.filter_cons, h, List.cons_append]
      norm_num
      exact (List.Perm.append_left _ List.perm_middle).trans (List.perm_middle.trans (ih.cons a))
    · simp only [List.filter_cons, h, List.cons_append]
      norm_num
      exact (List.Perm.append_left _
          ((List.Perm.append_left _ List.perm_middle).trans List.perm_middle)).trans
        (List.perm_middle.trans (ih.cons a))

theorem unique_tier_mem (l : List SavingsOpportunity) (o : SavingsOpportunity) (ho : o ∈ l) :
    ∃! tg, tg ∈ organize_opportunities_into_tiers l ∧ o ∈ tg.opportunities := by
  rw [organize_eq_tierGroups]
  rcases specTier_cases o with h | h | h | h
  · refine ⟨tier2Group l, ⟨by simp, by simp [tier2Group, List.mem_filter, ho, h]⟩, ?_⟩
    rintro tg ⟨htg, hmem⟩
    fin_cases htg <;>
      simp_all [tier1Group, tier2Group, tier3Group, tier4Group, tier5Group, List.mem_filter]
  · refine ⟨tier3Group l, ⟨by simp, by simp [tier3Group, List.mem_filter, ho, h]⟩, ?_⟩
    rintro tg ⟨htg, hmem⟩
    fin_cases htg <;>
      simp_all [tier1Group, tier2Group, tier3Group, tier4Group, tier5Group, List.mem_filter]
  · refine ⟨tier4Group l, ⟨by simp, by simp [tier4Group, List.mem_filter, ho, h]⟩, ?_⟩
    rintro tg ⟨htg, hmem⟩
    fin_cases htg <;>
      simp_all [tier1Group, tier2Group, tier3Group, tier4Group, tier5Group, List.mem_filter]
  · refine ⟨tier5Group l, ⟨by simp, by simp [tier5Group, List.mem_filter, ho, h]⟩, ?_⟩
    rintro tg ⟨htg, hmem⟩
    fin_cases htg <;>
      simp_all [tier1Group, tier2Group, tier3Group, tier4Group, tier5Group, List.mem_filter]

/-- C3: for every property, classifying the generated opportunities yields
exactly 5 tier groups numbered 1 through 5, the concatenation of the tier
lists is a permutation of the generated list (no duplication, no loss), and
every generated opportunity belongs to exactly one tier group. -/
theorem C3_classify_partition (p : PropertyData) :
    (organize_opportunities_into_tiers (generate_opportunities p)).length = 5 ∧
    (organize_opportunities_into_tiers (generate_opportunities p)).map (fun tg => tg.tier) =
      [1, 2, 3, 4, 5] ∧
    List.Perm
      ((organize_opportunities_into_tiers (generate_opportunities p)).map
        (fun tg => tg.opportunities)).flatten
      (generate_opportunities p) ∧
    ∀ o ∈ generate_opportunities p,
      ∃! tg, tg ∈ organize_opportunities_into_tiers (generate_opportunities p) ∧
        o ∈ tg.opportunities := by
  refine ⟨?_, ?_, ?_, fun o ho => unique_tier_mem _ o ho⟩
  · rw [organize_eq_tierGroups]; rfl
  · rw [organize_eq_tierGroups]; rfl
  · rw [organize_eq_tierGroups]
    simpa [tier1Group, tier2Group, tier3Group, tier4Group, tier5Group] using
      tier_filters_perm (generate_opportunities p)

/-- Witness for C3 at a concrete property: the energy-audit opportunity of
the sample property belongs to the generated list, so it lies in exactly one
tier group. -/
theorem C3_classify_partition_witness :
    energyAuditOpp (sampleProperty 1975 80) ∈ generate_opportunities (sampleProperty 1975 80) ∧
    ∃! tg, tg ∈ organize_opportunities_into_tiers (generate_opportunities (sampleProperty 1975 80)) ∧
      energyAuditOpp (sampleProperty 1975 80) ∈ tg.opportunities := by
  have ho : energyAuditOpp (sampleProperty 1975 80) ∈
      generate_opportunities (sampleProperty 1975 80) := by
    unfold generate_opportunities
    simp
  exact ⟨ho, (C3_classify_partition (sampleProperty 1975 80)).2.2.2 _ ho⟩

/-- C2: the three conditional opportunities are included exactly under their
gates — attic-insulation iff `yearBuilt < 1980`, solar-installation iff
`solarFeasibilityScore > 70`, window-replacement iff `yearBuilt < 1990`; in
particular at the 1979/1980 and 71/70 boundaries. -/
theorem C2_conditional_inclusion (p : PropertyData) :
    (("attic-insulation" ∈ (generate_opportunities p).map (fun o => o.id)) ↔
      p.yearBuilt < 1980) ∧
    (("solar-installation" ∈ (generate_opportunities p).map (fun o => o.id)) ↔
      p.solarFeasibilityScore > 70) ∧
    (("window-replacement" ∈ (generate_opportunities p).map (fun o => o.id)) ↔
      p.yearBuilt < 1990) ∧
    "attic-insulation" ∈ (generate_opportunities (sampleProperty 1979 80)).map (fun o => o.id) ∧
    "attic-insulation" ∉ (generate_opportunities (sampleProperty 1980 80)).map (fun o => o.id) ∧
    "solar-installation" ∈ (generate_opportunities (sampleProperty 2000 71)).map (fun o => o.id) ∧
    "solar-installation" ∉ (generate_opportunities (sampleProperty 2000 70)).map (fun o => o.id) := by
  have key : ∀ q : PropertyData,
      (("attic-insulation" ∈ (generate_opportunities q).map (fun o => o.id)) ↔
        q.yearBuilt < 1980) ∧
      (("solar-installation" ∈ (generate_opportunities q).map (fun o => o.id)) ↔
        q.solarFeasibilityScore > 70) ∧
      (("window-replacement" ∈ (generate_opportunities q).map (fun o => o.id)) ↔
        q.yearBuilt < 1990) := by
    intro q
    rw [generate_opportunities_map_id]
    unfold specIdList
    split_ifs <;> simp_all
  refine ⟨(key p).1, (key p).2.1, (key p).2.2, ?_, ?_, ?_, ?_⟩
  · exact (key (sampleProperty 1979 80)).1.mpr (by norm_num [sampleProperty])
  · intro hmem
    have := (key (sampleProperty 1980 80)).1.mp hmem
    norm_num [sampleProperty] at this
  · exact (key (sampleProperty 2000 71)).2.1.mpr (by norm_num [sampleProperty])
  · intro hmem
    have := (key (sampleProperty 2000 70)).2.1.mp hmem
    norm_num [sampleProperty] at this

/-- C4: the unconditional opportunities — energy-audit, water-kit (the water
conservation kit), led-lighting, power-strips, weatherization (assistance),
smart-thermostat, turf-removal, and heat-pump-water-heater — are present in
the output for every property. -/
theorem C4_unconditional_opportunities (p : PropertyData) :
    "energy-audit" ∈ (generate_opportunities p).map (fun o => o.id) ∧
    "water-kit" ∈ (generate_opportunities p).map (fun o => o.id) ∧
    "led-lighting" ∈ (generate_opportunities p).map (fun o => o.id) ∧
    "power-strips" ∈ (generate_opportunities p).map (fun o => o.id) ∧
    "weatherization" ∈ (generate_opportunities p).map (fun o => o.id) ∧
    "smart-thermostat" ∈ (generate_opportunities p).map (fun o => o.id) ∧
    "turf-removal" ∈ (generate_opportunities p).map (fun o => o.id) ∧
    "heat-pump-water-heater" ∈ (generate_opportunities p).map (fun o => o.id) := by
  rw [generate_opportunities_map_id]
  unfold specIdList
  split_ifs <;> simp

/-- C10: `generate_opportunities` is deterministic — the same property always
yields the same output list, in the fixed template order recorded by
`specIdList`; at a concrete property the annual-savings sequence is neither
ascending nor descending, so the output is not sorted by savings. -/
theorem C10_deterministic_order (p : PropertyData) :
    generate_opportunities p = generate_opportunities p ∧
    (generate_opportunities p).map (fun o => o.id) = specIdList p ∧
    ¬ List.Sorted (fun a b : ℚ => a ≤ b)
        ((generate_opportunities (sampleProperty 1975 80)).map (fun o => o.annualSavings)) ∧
    ¬ List.Sorted (fun a b : ℚ => b ≤ a)
        ((generate_opportunities (sampleProperty 1975 80)).map (fun o => o.annualSavings)) := by
  refine ⟨rfl, generate_opportunities_map_id p, ?_, ?_⟩ <;> decide

/-- Electric resolution as worded in the spec (section 4.1): six rules in
fixed order, first match returns; city-name rules before plain bounding-box
rules, then the latitude-36 fallback. -/
def electricResolutionSpec (lat lon : ℚ) (city county : String) : Option UtilityProvider :=
  if pyIn "los angeles" (pyLower city) ∧ _is_in_service_area lat lon "LADWP" then some LADWP
  else if (pyIn "sacramento" (pyLower city) ∨ pyIn "sacramento" (pyLower county)) ∧
      _is_in_service_area lat lon "SMUD" then some SMUD
  else if (pyIn "san diego" (pyLower county) ∨ pyIn "san diego" (pyLower city)) ∧
      _is_in_service_area lat lon "SDGE" then some SDGE
  else if _is_in_service_area lat lon "PGE" then some PGE
  else if _is_in_service_area lat lon "SCE" then some SCE
  else if lat < 36.0 then some SCE
  else some PGE

/-- C5: electric utility resolution follows the spec's six-rule first-match
cascade; (34.05, -118.40) with city "Los Angeles" resolves to LADWP, while
the same point with city "Unknown City" resolves to SCE through the SCE
bounding box (the point is inside the SCE box and outside the PG&E box). -/
theorem C5_electric_cascade :
    (∀ (lat lon : ℚ) (city county : String),
      _detect_electric_utility lat lon city county = electricResolutionSpec lat lon city county) ∧
    _detect_electric_utility 34.05 (-118.40) "Los Angeles" "" = some LADWP ∧
    _detect_electric_utility 34.05 (-118.40) "Unknown City" "" = some SCE ∧
    _is_in_service_area 34.05 (-118.40) "SCE" ∧
    ¬ _is_in_service_area 34.05 (-118.40) "PGE" := by
  have hLAbox : _is_in_service_area 34.05 (-118.40) "LADWP" := by
    unfold _is_in_service_area
    norm_num [SERVICE_AREA_BOUNDARIES]
  have hSCEbox : _is_in_service_area 34.05 (-118.40) "SCE" := by
    unfold _is_in_service_area
    norm_num [SERVICE_AREA_BOUNDARIES]
  have hPGEbox : ¬ _is_in_service_area 34.05 (-118.40) "PGE" := by
    unfold _is_in_service_area
    norm_num [SERVICE_AREA_BOUNDARIES]
  refine ⟨fun lat lon city county => rfl, ?_, ?_, hSCEbox, hPGEbox⟩
  · have h1 : pyIn "los angeles" (pyLower "Los Angeles") = true := by decide
    unfold _detect_electric_utility
    rw [if_pos ⟨h1, hLAbox⟩]
  · have h1 : pyIn "los angeles" (pyLower "Unknown City") = false := by decide
    have h2 : pyIn "sacramento" (pyLower "Unknown City") = false := by decide
    have h3 : pyIn "sacramento" (pyLower "") = false := by decide
    have h4 : pyIn "san diego" (pyLower "") = false := by decide
    have h5 : pyIn "san diego" (pyLower "Unknown City") = false := by decide
    unfold _detect_electric_utility
    rw [if_neg (by simp [h1]), if_neg (by simp [h2, h3]), if_neg (by simp [h4, h5]),
      if_neg hPGEbox, if_pos hSCEbox]

/-- C6: when the lowercased state is neither "california" nor "ca" nor
empty, the lookup returns all three slots absent, for any coordinates, city
and county. -/
theorem C6_non_california_short_circuit (lat lon : ℚ) (city county state : String)
    (h1 : pyLower state ≠ "california") (h2 : pyLower state ≠ "ca") (h3 : pyLower state ≠ "") :
    lookup_utilities lat lon city county state = UtilityLookupResult.mk none none none := by
  unfold lookup_utilities
  rw [if_pos]
  intro hc
  have hm : pyLower state ∈ ["california", "ca", ""] := by simpa using hc
  simp only [List.mem_cons, List.not_mem_nil, or_false] at hm
  rcases hm with hm | hm | hm
  · exact h1 hm
  · exact h2 hm
  · exact h3 hm

/-- Witness for C6 at state "NY". -/
theorem C6_non_california_short_circuit_witness :
    pyLower "NY" ≠ "california" ∧ pyLower "NY" ≠ "ca" ∧ pyLower "NY" ≠ "" ∧
    lookup_utilities 34.05 (-118.40) "Los Angeles" "Los Angeles" "NY" =
      UtilityLookupResult.mk none none none :=
  ⟨by decide, by decide, by decide,
   C6_non_california_short_circuit 34.05 (-118.40) "Los Angeles" "Los Angeles" "NY"
     (by decide) (by decide) (by decide)⟩

/-- C7: for California inputs the electric and gas slots are always present
(the latitude fallback guarantees a default), and the water slot is absent
exactly when no named-city water rule and no water bounding box matches. -/
theorem C7_california_electric_gas_present_water_no_fallback
    (lat lon : ℚ) (city county state : String)
    (h : pyLower state = "california" ∨ pyLower state = "ca" ∨ pyLower state = "") :
    (lookup_utilities lat lon city county state).electric.isSome = true ∧
    (lookup_utilities lat lon city county state).gas.isSome = true ∧
    ((lookup_utilities lat lon city county state).water = none ↔
      ¬ waterRuleMatches lat lon city county) := by
  have hc : ["california", "ca", ""].contains (pyLower state) = true := by
    rcases h with h | h | h <;> simp [h, List.contains]
  unfold lookup_utilities
  rw [if_neg (not_not_intro hc)]
  refine ⟨?_, ?_, ?_⟩
  · simp only [_detect_electric_utility]
    split_ifs <;> rfl
  · simp only [_detect_gas_utility]
    split_ifs <;> rfl
  · simp only [_detect_water_utility, waterRuleMatches]
    split_ifs with w1 w2 w3 w4 w5
    · exact iff_of_false (by simp) (not_not_intro (Or.inl w1))
    · exact iff_of_false (by simp) (not_not_intro (Or.inr (Or.inl w2)))
    · exact iff_of_false (by simp) (not_not_intro (Or.inr (Or.inr (Or.inl w3))))
    · exact iff_of_false (by simp) (not_not_intro (Or.inr (Or.inr (Or.inr (Or.inl w4)))))
    · exact iff_of_false (by simp) (not_not_intro (Or.inr (Or.inr (Or.inr (Or.inr w5)))))
    · refine iff_of_true rfl ?_
      rintro (h | h | h | h | h)
      exacts [w1 h, w2 h, w3 h, w4 h, w5 h]

/-- Witness for C7 at a concrete California input. -/
theorem C7_california_witness :
    (pyLower "ca" = "california" ∨ pyLower "ca" = "ca" ∨ pyLower "ca" = "") ∧
    ((lookup_utilities 34.05 (-118.40) "Los Angeles" "" "ca").electric.isSome = true ∧
     (lookup_utilities 34.05 (-118.40) "Los Angeles" "" "ca").gas.isSome = true ∧
     ((lookup_utilities 34.05 (-118.40) "Los Angeles" "" "ca").water = none ↔
       ¬ waterRuleMatches 34.05 (-118.40) "Los Angeles" "")) :=
  ⟨Or.inr (Or.inl (by decide)),
   C7_california_electric_gas_present_water_no_fallback 34.05 (-118.40) "Los Angeles" "" "ca"
     (Or.inr (Or.inl (by decide)))⟩

theorem get_programs_eq_spec (up : UtilityProvider) :
    get_programs_for_utility up = programsForSpec up := by
  unfold get_programs_for_utility programsForSpec PROVIDER_FRAGMENTS
  simp only [firstFragmentMatch, List.any_cons, List.any_nil, Bool.or_eq_true,
    Bool.or_false, or_false]

/-- C9: the program catalog dispatches on the provider name by
case-insensitive substring tests against the fixed fragment table in fixed
priority order, first match wins, empty list when nothing matches; and the
category query filters that list by exact category equality. -/
theorem C9_program_matching (up : UtilityProvider) (c : ProgramCategory) :
    get_programs_for_utility up = programsForSpec up ∧
    get_programs_by_category up c =
      (programsForSpec up).filter (fun pr => decide (pr.category = c)) := by
  refine ⟨get_programs_eq_spec up, ?_⟩
  unfold get_programs_by_category
  rw [get_programs_eq_spec]
